import Mathlib

/-
Shallow embedding of the AR voxel placement engine
(src/unnamed/part_000, a React component using three.js and MediaPipe Hands).

The mutable refs of the component (sceneRef, cameraRef, previewCubeRef,
placedCubesRef, lastPinchStateRef, blockCount) become the fields of an
explicit `AppState`; the per-frame `hands.onResults` callback, `placeBlock`
and `resetScene` become state transformers on it.  Real-number (`ℝ`)
arithmetic models the JavaScript floating-point arithmetic.  Library
primitives that the component calls (THREE.Vector3 operations,
THREE.Vector3.unproject for a PerspectiveCamera, JavaScript Math.round)
are modelled from their library semantics, each with a doc comment saying
what it models.
-/

set_option autoImplicit false

namespace ARVoxel

/-- Modelled from THREE.Vector3: a 3-component vector over the reals. -/
@[ext] structure Vec3 where
  x : ℝ
  y : ℝ
  z : ℝ

/-- Modelled from THREE.Vector3.sub: component-wise subtraction. -/
def Vec3.sub (a b : Vec3) : Vec3 := ⟨a.x - b.x, a.y - b.y, a.z - b.z⟩

/-- Modelled from THREE.Vector3.add: component-wise addition. -/
def Vec3.add (a b : Vec3) : Vec3 := ⟨a.x + b.x, a.y + b.y, a.z + b.z⟩

/-- Modelled from THREE.Vector3.multiplyScalar. -/
def Vec3.smul (a : Vec3) (k : ℝ) : Vec3 := ⟨a.x * k, a.y * k, a.z * k⟩

/-- Modelled from THREE.Vector3.length: the Euclidean norm. -/
noncomputable def Vec3.len (v : Vec3) : ℝ := Real.sqrt (v.x ^ 2 + v.y ^ 2 + v.z ^ 2)

open Classical in
/-- Modelled from THREE.Vector3.normalize: divide by `length() || 1`
(a zero-length vector is divided by 1, i.e. left unchanged). -/
noncomputable def Vec3.normalize (v : Vec3) : Vec3 :=
  let l := if v.len = 0 then 1 else v.len
  ⟨v.x / l, v.y / l, v.z / l⟩

/-- MediaPipe hand landmark (src/types.ts): normalized x, y and relative depth z. -/
structure Landmark where
  x : ℝ
  y : ℝ
  z : ℝ

/-- Constant from line 26 of the component. -/
noncomputable def GRID_SIZE : ℝ := 1

/-- Constant from line 27 of the component. -/
noncomputable def PINCH_THRESHOLD : ℝ := 0.045

/-- Constant from line 28 of the component. -/
noncomputable def BUILD_DISTANCE : ℝ := 6

/-- Modelled from JavaScript Math.round (ECMAScript: the closest integer,
with ties rounded toward positive infinity), in exact real arithmetic. -/
noncomputable def mathRound (x : ℝ) : ℤ := ⌊x + 1 / 2⌋

/-- The snapping logic of `getSnappedWorldPosition`, lines 117-121:
`Math.round(c / GRID_SIZE) * GRID_SIZE` applied to each component. -/
noncomputable def snapToGrid (v : Vec3) : Vec3 :=
  ⟨(mathRound (v.x / GRID_SIZE) : ℝ) * GRID_SIZE,
   (mathRound (v.y / GRID_SIZE) : ℝ) * GRID_SIZE,
   (mathRound (v.z / GRID_SIZE) : ℝ) * GRID_SIZE⟩

/-- Modelled from THREE.PerspectiveCamera: the parameters consumed by
unprojection.  The component never rotates the camera, so its orientation
is the identity and its world matrix is the translation by `position`. -/
structure PerspectiveCamera where
  fov : ℝ
  aspect : ℝ
  near : ℝ
  far : ℝ
  position : Vec3

/-- The camera constructed on lines 37-38:
`new THREE.PerspectiveCamera(70, aspect, 0.01, 100)` positioned at the origin. -/
noncomputable def appCamera (aspect : ℝ) : PerspectiveCamera :=
  { fov := 70, aspect := aspect, near := 0.01, far := 100, position := ⟨0, 0, 0⟩ }

/-- Modelled from THREE.Vector3.unproject for an identity-orientation
PerspectiveCamera: apply the inverse of the projection matrix built by
`updateProjectionMatrix` / `Matrix4.makePerspective` (with the perspective
division of `applyMatrix4`), then the camera world matrix, which is the
translation by `position`.  For the symmetric frustum built from
`fov`, `aspect`, `near`, `far`:
`top = near * tan(π/180 * fov/2)`, the matrix is
`[sx 0 0 0; 0 sy 0 0; 0 0 c d; 0 0 -1 0]` with `sx = near/(aspect*top)`,
`sy = near/top`, `c = -(far+near)/(far-near)`, `d = -2*far*near/(far-near)`;
its inverse sends `(vx, vy, vz, 1)` to the eye-space point
`(vx/sx, vy/sy, -1) / w` with `w = (vz + c) / d`. -/
noncomputable def unprojectPoint (cam : PerspectiveCamera) (v : Vec3) : Vec3 :=
  let top := cam.near * Real.tan (Real.pi / 180 * (0.5 * cam.fov))
  let sx := cam.near / (cam.aspect * top)
  let sy := cam.near / top
  let c := -(cam.far + cam.near) / (cam.far - cam.near)
  let d := -(2 * cam.far * cam.near) / (cam.far - cam.near)
  let w := (v.z + c) / d
  Vec3.add ⟨v.x / sx / w, v.y / sy / w, (-1) / w⟩ cam.position

/-- Lines 107-114 of `getSnappedWorldPosition`: normalized screen point to
NDC, unproject at mid depth 0.5, ray from the camera through that point,
advanced by `BUILD_DISTANCE`. -/
noncomputable def continuousTarget (cam : PerspectiveCamera) (x y : ℝ) : Vec3 :=
  let ndcX := x * 2 - 1
  let ndcY := -(y * 2) + 1
  let vector := unprojectPoint cam ⟨ndcX, ndcY, 0.5⟩
  let dir := (vector.sub cam.position).normalize
  cam.position.add (dir.smul BUILD_DISTANCE)

/-- `getSnappedWorldPosition` (lines 104-122): `none` models a null
`cameraRef.current`, for which the function returns `new THREE.Vector3()`,
the origin; otherwise project and snap to the lattice. -/
noncomputable def getSnappedWorldPosition
    (cam : Option PerspectiveCamera) (x y : ℝ) : Vec3 :=
  match cam with
  | none => ⟨0, 0, 0⟩
  | some c => snapToGrid (continuousTarget c x y)

/-- The mutable refs and React state of the component gathered into one
record.  `sceneReady` stands for `sceneRef.current !== null`, `previewReady`
for `previewCubeRef.current !== null`, `camera` for `cameraRef.current`. -/
structure AppState where
  sceneReady : Bool
  previewReady : Bool
  camera : Option PerspectiveCamera
  previewPos : Vec3
  previewVisible : Bool
  lastPinch : Bool
  placedCubes : List Vec3
  blockCount : ℕ

open Classical in
/-- `placeBlock` (lines 124-144): no-op when the scene is not initialized;
no-op when some placed cube's position `equals` the requested position
(THREE.Vector3.equals is exact equality of the three components, which for
`Vec3` is structure equality); otherwise push the new voxel position and
increment the block count. -/
noncomputable def placeBlock (s : AppState) (pos : Vec3) : AppState :=
  if s.sceneReady = false then s
  else if pos ∈ s.placedCubes then s
  else { s with placedCubes := s.placedCubes ++ [pos],
                blockCount := s.blockCount + 1 }

/-- `resetScene` (lines 210-215): no-op when the scene is not initialized;
otherwise remove every placed cube and set the block count to 0. -/
def resetScene (s : AppState) : AppState :=
  if s.sceneReady = false then s
  else { s with placedCubes := [], blockCount := 0 }

/-- The argument of the `hands.onResults` callback: `none` models a results
object whose `multiHandLandmarks` field is missing (a JavaScript falsy
value), `some hands` one whose field holds the list `hands` of detected
hands, each a list of landmarks. -/
abbrev HandInput := Option (List (List Landmark))

/-- Lines 164-171: the Euclidean distance between `landmarks[4]` (thumb
tip) and `landmarks[8]` (index tip), in the full 3-D (x, y, z) space. -/
noncomputable def handDist (landmarks : List Landmark) : ℝ :=
  let thumbTip := landmarks.getD 4 ⟨0, 0, 0⟩
  let indexTip := landmarks.getD 8 ⟨0, 0, 0⟩
  Real.sqrt ((thumbTip.x - indexTip.x) ^ 2 +
    (thumbTip.y - indexTip.y) ^ 2 +
    (thumbTip.z - indexTip.z) ^ 2)

open Classical in
/-- Line 173: `isPinching = dist < PINCH_THRESHOLD`. -/
noncomputable def isPinchingB (landmarks : List Landmark) : Bool :=
  decide (handDist landmarks < PINCH_THRESHOLD)

/-- The observable side effects of one `hands.onResults` invocation, in the
order the code performs them: a write of the preview cube position and
visibility, a write hiding the preview cube, a call of `placeBlock`. -/
inductive Event where
  | setPreview (pos : Vec3) (visible : Bool)
  | hidePreview
  | placeCall (pos : Vec3)

/-- The `hands.onResults` callback (lines 161-194) as a state transformer,
paired with the ordered list of its observable side effects.  The hand
branch is taken exactly when `multiHandLandmarks` is present and nonempty;
its head is `landmarks`.  The preview writes happen only when
`previewCubeRef.current` is non-null (`previewReady`). -/
noncomputable def onResultsT (s : AppState) (results : HandInput) :
    AppState × List Event :=
  match results with
  | some (landmarks :: _) =>
    let thumbTip := landmarks.getD 4 ⟨0, 0, 0⟩
    let indexTip := landmarks.getD 8 ⟨0, 0, 0⟩
    let isPinching := isPinchingB landmarks
    let midpointX := (thumbTip.x + indexTip.x) / 2
    let midpointY := (thumbTip.y + indexTip.y) / 2
    let snappedPos := getSnappedWorldPosition s.camera midpointX midpointY
    let s1 := if s.previewReady then
        { s with previewPos := snappedPos, previewVisible := isPinching }
      else s
    let e1 : List Event := if s.previewReady then
        [.setPreview snappedPos isPinching] else []
    let fire := s.lastPinch && !isPinching
    let s2 := if fire then placeBlock s1 snappedPos else s1
    let e2 : List Event := if fire then [.placeCall snappedPos] else []
    ({ s2 with lastPinch := isPinching }, e1 ++ e2)
  | _ =>
    let s1 := if s.previewReady then { s with previewVisible := false } else s
    let e1 : List Event := if s.previewReady then [.hidePreview] else []
    ({ s1 with lastPinch := false }, e1)

/-- The state transformer of one processed frame. -/
noncomputable def onResults (s : AppState) (results : HandInput) : AppState :=
  (onResultsT s results).1

/-- A release edge fires during a frame exactly when the frame's side
effects contain a `placeBlock` call (the body of the `if` on line 185). -/
def firesRelease (s : AppState) (results : HandInput) : Prop :=
  ∃ p, Event.placeCall p ∈ (onResultsT s results).2

/-- The state right after the initialization effects: empty store, zero
count, pinch memory false, preview at the origin and invisible.  The
readiness flags and the camera are parameters because the refs are null
until the corresponding effect has run. -/
def initState (sceneReady previewReady : Bool)
    (cam : Option PerspectiveCamera) : AppState :=
  { sceneReady := sceneReady, previewReady := previewReady, camera := cam,
    previewPos := ⟨0, 0, 0⟩, previewVisible := false, lastPinch := false,
    placedCubes := [], blockCount := 0 }

/-- The states the component can reach: an initial state followed by any
interleaving of processed frames and Clear Scene button presses. -/
inductive Reachable : AppState → Prop where
  | init : ∀ sr pr cam, Reachable (initState sr pr cam)
  | frame : ∀ {s : AppState} (results : HandInput),
      Reachable s → Reachable (onResults s results)
  | clear : ∀ {s : AppState}, Reachable s → Reachable (resetScene s)

/-! Helper lemmas about the store operations. -/

lemma placeBlock_of_mem {s : AppState} {pos : Vec3} (h : pos ∈ s.placedCubes) :
    placeBlock s pos = s := by
  unfold placeBlock
  split
  · rfl
  · simp [h]

lemma placeBlock_of_not_ready {s : AppState} (pos : Vec3)
    (h : s.sceneReady = false) : placeBlock s pos = s := by
  simp [placeBlock, h]

lemma placeBlock_of_new {s : AppState} {pos : Vec3} (hs : s.sceneReady = true)
    (h : pos ∉ s.placedCubes) :
    placeBlock s pos = { s with placedCubes := s.placedCubes ++ [pos],
                                blockCount := s.blockCount + 1 } := by
  simp [placeBlock, hs, h]

lemma placeBlock_cases (s : AppState) (pos : Vec3) :
    placeBlock s pos = s ∨
    (s.sceneReady = true ∧ pos ∉ s.placedCubes ∧
      placeBlock s pos = { s with placedCubes := s.placedCubes ++ [pos],
                                  blockCount := s.blockCount + 1 }) := by
  by_cases hs : s.sceneReady = true
  · by_cases hm : pos ∈ s.placedCubes
    · exact Or.inl (placeBlock_of_mem hm)
    · exact Or.inr ⟨hs, hm, placeBlock_of_new hs hm⟩
  · exact Or.inl (placeBlock_of_not_ready pos (by simpa using hs))

lemma placeBlock_sceneReady (s : AppState) (pos : Vec3) :
    (placeBlock s pos).sceneReady = s.sceneReady := by
  rcases placeBlock_cases s pos with h | ⟨_, _, h⟩ <;> rw [h]

lemma resetScene_cases (s : AppState) :
    (s.sceneReady = false ∧ resetScene s = s) ∨
    (s.sceneReady = true ∧
      resetScene s = { s with placedCubes := [], blockCount := 0 }) := by
  by_cases hs : s.sceneReady = false
  · exact Or.inl ⟨hs, by simp [resetScene, hs]⟩
  · refine Or.inr ⟨by simpa using hs, ?_⟩
    simp [resetScene, hs]

lemma resetScene_sceneReady (s : AppState) :
    (resetScene s).sceneReady = s.sceneReady := by
  rcases resetScene_cases s with ⟨_, h⟩ | ⟨_, h⟩ <;> rw [h]

/-! Helper lemmas about the per-frame callback. -/

lemma onResultsT_no_hand (s : AppState) {r : HandInput}
    (h : r = none ∨ r = some []) :
    onResultsT s r =
      (if s.previewReady then
         ({ { s with previewVisible := false } with lastPinch := false },
          [Event.hidePreview])
       else ({ s with lastPinch := false }, [])) := by
  rcases h with rfl | rfl <;>
    · unfold onResultsT
      by_cases hp : s.previewReady <;> simp [hp]

/-- The snapped lattice position computed from the pinch-point midpoint of
the head hand (lines 174-177): the average of the thumb-tip and index-tip
screen coordinates fed to `getSnappedWorldPosition`. -/
noncomputable def snapMid (s : AppState) (l : List Landmark) : Vec3 :=
  getSnappedWorldPosition s.camera
    (((l.getD 4 ⟨0, 0, 0⟩).x + (l.getD 8 ⟨0, 0, 0⟩).x) / 2)
    (((l.getD 4 ⟨0, 0, 0⟩).y + (l.getD 8 ⟨0, 0, 0⟩).y) / 2)

/-- The preview update of lines 179-182: when the preview cube exists, copy
the snapped position into it and make it visible exactly when pinching. -/
noncomputable def previewStep (s : AppState) (l : List Landmark) : AppState :=
  if s.previewReady then
    { s with previewPos := snapMid s l, previewVisible := isPinchingB l }
  else s

lemma onResultsT_hand (s : AppState) (l : List Landmark)
    (rest : List (List Landmark)) :
    onResultsT s (some (l :: rest)) =
      ({ (if s.lastPinch && !(isPinchingB l)
          then placeBlock (previewStep s l) (snapMid s l)
          else previewStep s l) with lastPinch := isPinchingB l },
       (if s.previewReady then
          [Event.setPreview (snapMid s l) (isPinchingB l)] else []) ++
       (if s.lastPinch && !(isPinchingB l) then
          [Event.placeCall (snapMid s l)] else [])) := by
  rfl

lemma previewStep_placedCubes (s : AppState) (l : List Landmark) :
    (previewStep s l).placedCubes = s.placedCubes := by
  unfold previewStep; split <;> rfl

lemma previewStep_blockCount (s : AppState) (l : List Landmark) :
    (previewStep s l).blockCount = s.blockCount := by
  unfold previewStep; split <;> rfl

lemma previewStep_sceneReady (s : AppState) (l : List Landmark) :
    (previewStep s l).sceneReady = s.sceneReady := by
  unfold previewStep; split <;> rfl

lemma lastPinch_onResults_hand (s : AppState) (l : List Landmark)
    (rest : List (List Landmark)) :
    (onResults s (some (l :: rest))).lastPinch = isPinchingB l := by
  rw [onResults, onResultsT_hand]

lemma lastPinch_onResults_no_hand (s : AppState) {r : HandInput}
    (h : r = none ∨ r = some []) : (onResults s r).lastPinch = false := by
  rw [onResults, onResultsT_no_hand s h]
  by_cases hp : s.previewReady <;> simp [hp]

lemma firesRelease_no_hand (s : AppState) {r : HandInput}
    (h : r = none ∨ r = some []) : ¬ firesRelease s r := by
  rw [firesRelease, onResultsT_no_hand s h]
  by_cases hp : s.previewReady <;> simp [hp]

lemma firesRelease_hand_iff (s : AppState) (l : List Landmark)
    (rest : List (List Landmark)) :
    firesRelease s (some (l :: rest)) ↔
      (s.lastPinch = true ∧ isPinchingB l = false) := by
  rw [firesRelease, onResultsT_hand]
  by_cases hf : (s.lastPinch && !(isPinchingB l)) = true <;>
    by_cases hp : s.previewReady <;> simp_all

lemma onResults_store_effect (s : AppState) (r : HandInput) :
    ((onResults s r).placedCubes = s.placedCubes ∧
     (onResults s r).blockCount = s.blockCount) ∨
    (∃ p, p ∉ s.placedCubes ∧
      (onResults s r).placedCubes = s.placedCubes ++ [p] ∧
      (onResults s r).blockCount = s.blockCount + 1) := by
  match r with
  | none =>
    left
    rw [onResults, onResultsT_no_hand s (Or.inl rfl)]
    by_cases hp : s.previewReady <;> simp [hp]
  | some [] =>
    left
    rw [onResults, onResultsT_no_hand s (Or.inr rfl)]
    by_cases hp : s.previewReady <;> simp [hp]
  | some (l :: rest) =>
    rw [onResults, onResultsT_hand]
    by_cases hf : (s.lastPinch && !(isPinchingB l)) = true
    · rcases placeBlock_cases (previewStep s l) (snapMid s l) with hpb |
        ⟨_, hmem, hpb⟩
      · left
        simp [hf, hpb, previewStep_placedCubes, previewStep_blockCount]
      · right
        refine ⟨snapMid s l, ?_, ?_, ?_⟩
        · rw [previewStep_placedCubes] at hmem; exact hmem
        · simp [hf, hpb, previewStep_placedCubes]
        · simp [hf, hpb, previewStep_blockCount]
    · left
      simp [hf, previewStep_placedCubes, previewStep_blockCount]

lemma onResults_sceneReady (s : AppState) (r : HandInput) :
    (onResults s r).sceneReady = s.sceneReady := by
  match r with
  | none =>
    rw [onResults, onResultsT_no_hand s (Or.inl rfl)]
    by_cases hp : s.previewReady <;> simp [hp]
  | some [] =>
    rw [onResults, onResultsT_no_hand s (Or.inr rfl)]
    by_cases hp : s.previewReady <;> simp [hp]
  | some (l :: rest) =>
    rw [onResults, onResultsT_hand]
    by_cases hf : (s.lastPinch && !(isPinchingB l)) = true <;>
      simp [hf, placeBlock_sceneReady, previewStep_sceneReady]

lemma onResults_not_ready_store (s : AppState) (r : HandInput)
    (h : s.sceneReady = false) :
    (onResults s r).placedCubes = s.placedCubes ∧
    (onResults s r).blockCount = s.blockCount := by
  match r with
  | none =>
    rw [onResults, onResultsT_no_hand s (Or.inl rfl)]
    by_cases hp : s.previewReady <;> simp [hp]
  | some [] =>
    rw [onResults, onResultsT_no_hand s (Or.inr rfl)]
    by_cases hp : s.previewReady <;> simp [hp]
  | some (l :: rest) =>
    rw [onResults, onResultsT_hand]
    have hready : (previewStep s l).sceneReady = false := by
      rw [previewStep_sceneReady]; exact h
    by_cases hf : (s.lastPinch && !(isPinchingB l)) = true <;>
      simp [hf, placeBlock_of_not_ready (snapMid s l) hready,
        previewStep_placedCubes, previewStep_blockCount]

/-! Invariants over the reachable states. -/

lemma reachable_count_eq_length {s : AppState} (h : Reachable s) :
    s.blockCount = s.placedCubes.length := by
  induction h with
  | init sr pr cam => rfl
  | @frame t r hr ih =>
    rcases onResults_store_effect t r with ⟨h1, h2⟩ | ⟨p, _, h1, h2⟩ <;>
      simp [h1, h2, ih]
  | @clear t hr ih =>
    rcases resetScene_cases t with ⟨_, hc⟩ | ⟨_, hc⟩ <;> simp [hc, ih]

lemma reachable_not_ready_empty {s : AppState} (h : Reachable s)
    (hr : s.sceneReady = false) :
    s.placedCubes = [] ∧ s.blockCount = 0 := by
  induction h with
  | init sr pr cam => exact ⟨rfl, rfl⟩
  | @frame t r hr2 ih =>
    have hs : t.sceneReady = false := by
      rw [← onResults_sceneReady t r]; exact hr
    have hst := onResults_not_ready_store t r hs
    rcases ih hs with ⟨h1, h2⟩
    rw [hst.1, hst.2, h1, h2]
    exact ⟨rfl, rfl⟩
  | @clear t hr2 ih =>
    have hs : t.sceneReady = false := by
      rw [← resetScene_sceneReady t]; exact hr
    rcases resetScene_cases t with ⟨_, hc⟩ | ⟨hready, hc⟩
    · rw [hc]
      exact ih hs
    · rw [hs] at hready
      exact absurd hready (by simp)

lemma reachable_nodup {s : AppState} (h : Reachable s) :
    s.placedCubes.Nodup := by
  induction h with
  | init sr pr cam => exact List.nodup_nil
  | @frame t r hr ih =>
    rcases onResults_store_effect t r with ⟨h1, _⟩ | ⟨p, hmem, h1, _⟩
    · rw [h1]; exact ih
    · rw [h1]
      simp [List.nodup_append, ih, hmem]
  | @clear t hr ih =>
    rcases resetScene_cases t with ⟨_, hc⟩ | ⟨_, hc⟩ <;> simp [hc, ih]

/-! Concrete landmark lists for evaluating the pinch detector, and
evaluation lemmas for `mathRound`. -/

/-- The origin landmark. -/
noncomputable def lmO : Landmark := ⟨0, 0, 0⟩

/-- A hand whose thumb tip and index tip coincide: distance 0, pinching. -/
noncomputable def handPinch : List Landmark :=
  [lmO, lmO, lmO, lmO, lmO, lmO, lmO, lmO, lmO]

/-- A hand whose thumb tip is the origin and index tip is one unit away:
distance 1, not pinching. -/
noncomputable def handOpen : List Landmark :=
  [lmO, lmO, lmO, lmO, lmO, lmO, lmO, lmO, ⟨1, 0, 0⟩]

/-- A non-pinching hand whose pinch-point midpoint is the screen center
(1/2, 1/2): thumb tip (0, 1/2, 0), index tip (1, 1/2, 0). -/
noncomputable def handRel : List Landmark :=
  [lmO, lmO, lmO, lmO, ⟨0, 1/2, 0⟩, lmO, lmO, lmO, ⟨1, 1/2, 0⟩]

/-- A hand whose tips are exactly `PINCH_THRESHOLD` apart. -/
noncomputable def handBoundary : List Landmark :=
  [lmO, lmO, lmO, lmO, lmO, lmO, lmO, lmO, ⟨0.045, 0, 0⟩]

lemma handDist_handPinch : handDist handPinch = 0 := by
  rw [show handDist handPinch =
    Real.sqrt (((0:ℝ) - 0) ^ 2 + ((0:ℝ) - 0) ^ 2 + ((0:ℝ) - 0) ^ 2) from rfl]
  rw [show ((0:ℝ) - 0) ^ 2 + ((0:ℝ) - 0) ^ 2 + ((0:ℝ) - 0) ^ 2 = 0 by norm_num]
  exact Real.sqrt_zero

lemma handDist_handOpen : handDist handOpen = 1 := by
  rw [show handDist handOpen =
    Real.sqrt (((0:ℝ) - 1) ^ 2 + ((0:ℝ) - 0) ^ 2 + ((0:ℝ) - 0) ^ 2) from rfl]
  rw [show ((0:ℝ) - 1) ^ 2 + ((0:ℝ) - 0) ^ 2 + ((0:ℝ) - 0) ^ 2 = 1 by norm_num]
  exact Real.sqrt_one

lemma handDist_handRel : handDist handRel = 1 := by
  rw [show handDist handRel =
    Real.sqrt (((0:ℝ) - 1) ^ 2 + ((1/2:ℝ) - 1/2) ^ 2 + ((0:ℝ) - 0) ^ 2) from rfl]
  rw [show ((0:ℝ) - 1) ^ 2 + ((1/2:ℝ) - 1/2) ^ 2 + ((0:ℝ) - 0) ^ 2 = 1 by
    norm_num]
  exact Real.sqrt_one

lemma handDist_handBoundary : handDist handBoundary = PINCH_THRESHOLD := by
  rw [show handDist handBoundary =
    Real.sqrt (((0:ℝ) - 0.045) ^ 2 + ((0:ℝ) - 0) ^ 2 + ((0:ℝ) - 0) ^ 2) from rfl]
  rw [show ((0:ℝ) - 0.045) ^ 2 + ((0:ℝ) - 0) ^ 2 + ((0:ℝ) - 0) ^ 2 =
    (0.045:ℝ) ^ 2 by norm_num]
  rw [Real.sqrt_sq (by norm_num)]
  rfl

lemma isPinchingB_handPinch : isPinchingB handPinch = true := by
  unfold isPinchingB
  apply decide_eq_true
  rw [handDist_handPinch]
  unfold PINCH_THRESHOLD
  norm_num

lemma isPinchingB_handOpen : isPinchingB handOpen = false := by
  unfold isPinchingB
  apply decide_eq_false
  rw [handDist_handOpen]
  unfold PINCH_THRESHOLD
  norm_num

lemma isPinchingB_handRel : isPinchingB handRel = false := by
  unfold isPinchingB
  apply decide_eq_false
  rw [handDist_handRel]
  unfold PINCH_THRESHOLD
  norm_num

lemma isPinchingB_handBoundary : isPinchingB handBoundary = false := by
  unfold isPinchingB
  apply decide_eq_false
  rw [handDist_handBoundary]
  exact lt_irrefl PINCH_THRESHOLD

lemma mathRound_eq {x : ℝ} {z : ℤ} (h1 : (z : ℝ) ≤ x + 1 / 2)
    (h2 : x + 1 / 2 < z + 1) : mathRound x = z := by
  unfold mathRound
  rw [Int.floor_eq_iff]
  exact ⟨h1, h2⟩

lemma mathRound_zero : mathRound 0 = 0 :=
  mathRound_eq (by norm_num) (by norm_num)

lemma mathRound_neg_six : mathRound (-6) = -6 :=
  mathRound_eq (by norm_num) (by norm_num)

/-! Evaluation of the projection pipeline at the screen center. -/

lemma unprojectPoint_center (a : ℝ) :
    unprojectPoint (appCamera a) ⟨0, 0, 0.5⟩ = ⟨0, 0, -(400 / 10003)⟩ := by
  unfold unprojectPoint appCamera Vec3.add
  refine Vec3.ext ?_ ?_ ?_
  · simp
  · simp
  · norm_num

lemma len_center : Vec3.len ⟨0, 0, -(400 / 10003 : ℝ)⟩ = 400 / 10003 := by
  unfold Vec3.len
  rw [show ((0:ℝ) ^ 2 + (0:ℝ) ^ 2 + (-(400 / 10003 : ℝ)) ^ 2) =
    (400 / 10003 : ℝ) ^ 2 by ring]
  exact Real.sqrt_sq (by norm_num)

lemma normalize_center :
    Vec3.normalize ⟨0, 0, -(400 / 10003 : ℝ)⟩ = ⟨0, 0, -1⟩ := by
  unfold Vec3.normalize
  rw [len_center]
  rw [if_neg (by norm_num)]
  refine Vec3.ext ?_ ?_ ?_ <;> norm_num

lemma continuousTarget_center (a : ℝ) :
    continuousTarget (appCamera a) (1 / 2) (1 / 2) = ⟨0, 0, -6⟩ := by
  have h : continuousTarget (appCamera a) (1 / 2) (1 / 2) =
      (appCamera a).position.add
        ((((unprojectPoint (appCamera a)
            ⟨(1 / 2 : ℝ) * 2 - 1, -((1 / 2 : ℝ) * 2) + 1, 0.5⟩).sub
          (appCamera a).position).normalize).smul BUILD_DISTANCE) := rfl
  rw [h]
  rw [show ((1 / 2 : ℝ) * 2 - 1) = 0 by norm_num,
    show (-((1 / 2 : ℝ) * 2) + 1) = 0 by norm_num]
  rw [unprojectPoint_center]
  rw [show (Vec3.sub ⟨0, 0, -(400 / 10003 : ℝ)⟩ (appCamera a).position) =
    ⟨0, 0, -(400 / 10003 : ℝ)⟩ by
      unfold Vec3.sub appCamera
      refine Vec3.ext ?_ ?_ ?_ <;> norm_num]
  rw [normalize_center]
  unfold Vec3.smul Vec3.add appCamera BUILD_DISTANCE
  refine Vec3.ext ?_ ?_ ?_ <;> norm_num

lemma snapToGrid_center : snapToGrid ⟨0, 0, -6⟩ = ⟨0, 0, -6⟩ := by
  unfold snapToGrid GRID_SIZE
  rw [show ((0:ℝ) / 1) = 0 by norm_num, show ((-6:ℝ) / 1) = -6 by norm_num]
  rw [mathRound_zero, mathRound_neg_six]
  refine Vec3.ext ?_ ?_ ?_ <;> norm_num

lemma getSnapped_center (a : ℝ) :
    getSnappedWorldPosition (some (appCamera a)) (1 / 2) (1 / 2) =
      ⟨0, 0, -6⟩ := by
  show snapToGrid (continuousTarget (appCamera a) (1 / 2) (1 / 2)) = _
  rw [continuousTarget_center]
  exact snapToGrid_center

/-! The two rounding rules named by the spec, for comparison with the
rounding the code applies. -/

open Classical in
/-- Modelled from the spec: the round-half-away-from-zero rule, which sends
an exact half to the integer of larger magnitude. -/
noncomputable def roundHalfAwayFromZero (x : ℝ) : ℤ :=
  if 0 ≤ x then ⌊x + 1 / 2⌋ else -⌊-x + 1 / 2⌋

open Classical in
/-- Modelled from the spec: the round-half-to-even rule, which sends an
exact half to the nearest even integer and any other value to the nearest
integer. -/
noncomputable def roundHalfToEven (x : ℝ) : ℤ :=
  if Int.fract x = 1 / 2 then
    (if Even ⌊x⌋ then ⌊x⌋ else ⌊x⌋ + 1)
  else ⌊x + 1 / 2⌋

lemma mathRound_neg_three_halves : mathRound ((-3 : ℝ) / 2) = -1 :=
  mathRound_eq (by norm_num) (by norm_num)

lemma floor_neg_three_halves : ⌊((-3 : ℝ) / 2)⌋ = -2 := by
  rw [Int.floor_eq_iff]
  norm_num

lemma roundHalfAwayFromZero_neg_three_halves :
    roundHalfAwayFromZero ((-3 : ℝ) / 2) = -2 := by
  unfold roundHalfAwayFromZero
  rw [if_neg (by norm_num)]
  rw [show ⌊-((-3 : ℝ) / 2) + 1 / 2⌋ = 2 by
    rw [Int.floor_eq_iff]
    norm_num]

lemma roundHalfToEven_neg_three_halves :
    roundHalfToEven ((-3 : ℝ) / 2) = -2 := by
  unfold roundHalfToEven
  rw [if_pos (by
    rw [Int.fract, floor_neg_three_halves]
    norm_num)]
  rw [floor_neg_three_halves]
  rw [if_pos (by decide)]

lemma mathRound_eq_round (x : ℝ) : mathRound x = round x :=
  (round_eq x).symm

lemma placeBlock_previewVisible (s : AppState) (pos : Vec3) :
    (placeBlock s pos).previewVisible = s.previewVisible := by
  rcases placeBlock_cases s pos with h | ⟨_, _, h⟩ <;> rw [h]

/-- A state with the scene, preview and camera initialized, an empty store,
the preview visible and the pinch memory set: the state right after a
pinching frame was processed at startup. -/
noncomputable def s8 : AppState :=
  { sceneReady := true, previewReady := true, camera := some (appCamera 1),
    previewPos := ⟨0, 0, 0⟩, previewVisible := true, lastPinch := true,
    placedCubes := [], blockCount := 0 }

lemma snapMid_s8_handRel : snapMid s8 handRel = ⟨0, 0, -6⟩ := by
  rw [show snapMid s8 handRel =
    getSnappedWorldPosition (some (appCamera 1)) (((0 : ℝ) + 1) / 2)
      (((1 / 2 : ℝ) + 1 / 2) / 2) from rfl]
  rw [show (((0 : ℝ) + 1) / 2) = 1 / 2 by norm_num,
    show (((1 / 2 : ℝ) + 1 / 2) / 2) = 1 / 2 by norm_num]
  exact getSnapped_center 1

/-! The claims. -/

/-- C1: for every pair of consecutively processed hand frames, a release
edge fires (the `placeBlock` call of line 186 happens, committing a
placement subject to the store's occupancy and initialization guards) if
and only if the previous processed frame had `isPinching = true` and the
current frame has `isPinching = false`; processing a frame with no hand
resets the stored previous-pinch memory to false and fires nothing, so
losing tracking while pinching and reappearing not pinching never fires a
release. -/
theorem c1_release_edge_iff :
    (∀ (s : AppState) (l1 l2 : List Landmark)
        (r1 r2 : List (List Landmark)),
       (firesRelease (onResults s (some (l1 :: r1))) (some (l2 :: r2)) ↔
         (isPinchingB l1 = true ∧ isPinchingB l2 = false))) ∧
    (∀ (s : AppState) (r : HandInput), (r = none ∨ r = some []) →
       ¬ firesRelease s r ∧ (onResults s r).lastPinch = false) ∧
    (∀ (s : AppState) (r : HandInput) (l : List Landmark)
        (rest : List (List Landmark)), (r = none ∨ r = some []) →
       ¬ firesRelease (onResults s r) (some (l :: rest))) := by
  refine ⟨?_, ?_, ?_⟩
  · intro s l1 l2 r1 r2
    rw [firesRelease_hand_iff, lastPinch_onResults_hand]
  · intro s r h
    exact ⟨firesRelease_no_hand s h, lastPinch_onResults_no_hand s h⟩
  · intro s r l rest h
    rw [firesRelease_hand_iff, lastPinch_onResults_no_hand s h]
    simp

/-- Witness for C1 at concrete inputs: a pinching frame followed by an
open frame fires a release; a frame without a hand fires none; after a
frame without a hand, an open frame fires none. -/
theorem c1_release_edge_iff_witness :
    firesRelease (onResults (initState true true none) (some [handPinch]))
        (some [handOpen]) ∧
    ¬ firesRelease (initState true true none) none ∧
    ¬ firesRelease (onResults (initState true true none) none)
        (some [handOpen]) :=
  ⟨(c1_release_edge_iff.1 (initState true true none) handPinch handOpen
      [] []).mpr ⟨isPinchingB_handPinch, isPinchingB_handOpen⟩,
   (c1_release_edge_iff.2.1 (initState true true none) none (Or.inl rfl)).1,
   c1_release_edge_iff.2.2 (initState true true none) none handOpen []
     (Or.inl rfl)⟩

/-- C2: `isPinching` is true exactly when the Euclidean distance between
landmark 4 and landmark 8, taken in the full 3-D (x, y, z) space, is
strictly below `PINCH_THRESHOLD` (equivalently, when the squared distance
is below the squared threshold); any distance at or above the threshold
gives false, and in particular a hand at exactly the threshold distance is
not pinching: the boundary is exclusive on the true side. -/
theorem c2_pinch_iff :
    (∀ l : List Landmark,
       (isPinchingB l = true ↔ handDist l < PINCH_THRESHOLD) ∧
       (isPinchingB l = true ↔
         ((l.getD 4 ⟨0, 0, 0⟩).x - (l.getD 8 ⟨0, 0, 0⟩).x) ^ 2 +
           ((l.getD 4 ⟨0, 0, 0⟩).y - (l.getD 8 ⟨0, 0, 0⟩).y) ^ 2 +
           ((l.getD 4 ⟨0, 0, 0⟩).z - (l.getD 8 ⟨0, 0, 0⟩).z) ^ 2 <
           PINCH_THRESHOLD ^ 2) ∧
       (PINCH_THRESHOLD ≤ handDist l → isPinchingB l = false)) ∧
    isPinchingB handBoundary = false := by
  constructor
  · intro l
    have hiff : isPinchingB l = true ↔ handDist l < PINCH_THRESHOLD := by
      unfold isPinchingB
      exact decide_eq_true_iff
    refine ⟨hiff, ?_, ?_⟩
    · rw [hiff]
      rw [show handDist l = Real.sqrt
        (((l.getD 4 ⟨0, 0, 0⟩).x - (l.getD 8 ⟨0, 0, 0⟩).x) ^ 2 +
          ((l.getD 4 ⟨0, 0, 0⟩).y - (l.getD 8 ⟨0, 0, 0⟩).y) ^ 2 +
          ((l.getD 4 ⟨0, 0, 0⟩).z - (l.getD 8 ⟨0, 0, 0⟩).z) ^ 2) from rfl]
      exact Real.sqrt_lt' (by unfold PINCH_THRESHOLD; norm_num)
    · intro hge
      unfold isPinchingB
      exact decide_eq_false (not_lt.mpr hge)
  · exact isPinchingB_handBoundary

/-- Witness for C2 at a concrete input: the open hand is one unit apart,
above the threshold, hence not pinching. -/
theorem c2_pinch_iff_witness :
    PINCH_THRESHOLD ≤ handDist handOpen ∧ isPinchingB handOpen = false :=
  ⟨by rw [handDist_handOpen]; unfold PINCH_THRESHOLD; norm_num,
   (c2_pinch_iff.1 handOpen).2.2
     (by rw [handDist_handOpen]; unfold PINCH_THRESHOLD; norm_num)⟩

/-- C3: placement is idempotent and never overwrites: placing at an
occupied position (exact match of all three coordinates) leaves the whole
state unchanged; placing twice at an empty position in an initialized
scene appends exactly one voxel and increments the count by exactly 1 in
total, the second call being a no-op; and every reachable store holds at
most one voxel per lattice position. -/
theorem c3_place_idempotent :
    (∀ (s : AppState) (pos : Vec3), pos ∈ s.placedCubes →
       placeBlock s pos = s) ∧
    (∀ (s : AppState) (pos : Vec3), s.sceneReady = true →
       pos ∉ s.placedCubes →
       (placeBlock (placeBlock s pos) pos).placedCubes =
         s.placedCubes ++ [pos] ∧
       (placeBlock (placeBlock s pos) pos).blockCount = s.blockCount + 1 ∧
       placeBlock (placeBlock s pos) pos = placeBlock s pos) ∧
    (∀ s : AppState, Reachable s → s.placedCubes.Nodup) := by
  refine ⟨fun s pos h => placeBlock_of_mem h, ?_, fun s h => reachable_nodup h⟩
  intro s pos hs hnm
  have h1 : placeBlock s pos =
      { s with placedCubes := s.placedCubes ++ [pos],
               blockCount := s.blockCount + 1 } :=
    placeBlock_of_new hs hnm
  have h2 : placeBlock (placeBlock s pos) pos = placeBlock s pos := by
    apply placeBlock_of_mem
    rw [h1]
    simp
  rw [h2, h1]
  exact ⟨rfl, rfl, rfl⟩

/-- Witness for C3 at concrete inputs: placing the origin twice in a fresh
initialized scene yields the singleton store with count 1, and the initial
state has no duplicate positions. -/
theorem c3_place_idempotent_witness :
    (placeBlock (placeBlock (initState true true none) ⟨0, 0, 0⟩)
        ⟨0, 0, 0⟩).placedCubes = [⟨0, 0, 0⟩] ∧
    (placeBlock (placeBlock (initState true true none) ⟨0, 0, 0⟩)
        ⟨0, 0, 0⟩).blockCount = 1 ∧
    (initState true true none).placedCubes.Nodup :=
  ⟨(c3_place_idempotent.2.1 (initState true true none) ⟨0, 0, 0⟩ rfl
      (by simp [initState])).1,
   (c3_place_idempotent.2.1 (initState true true none) ⟨0, 0, 0⟩ rfl
      (by simp [initState])).2.1,
   c3_place_idempotent.2.2 (initState true true none)
     (Reachable.init true true none)⟩

/-- C4 counterexample: at the half-cell boundary -3/2 the snap rounding of
the code (JavaScript Math.round, ties toward positive infinity) yields -1,
while round-half-away-from-zero and round-half-to-even both yield -2, so
the code's rounding agrees with neither rule named by the claim. -/
theorem c4_counterexample_half_cell :
    snapToGrid ⟨(-3 : ℝ) / 2, 0, 0⟩ = ⟨-1, 0, 0⟩ ∧
    roundHalfAwayFromZero ((-3 : ℝ) / 2) = -2 ∧
    roundHalfToEven ((-3 : ℝ) / 2) = -2 ∧
    ¬(mathRound ((-3 : ℝ) / 2) = roundHalfAwayFromZero ((-3 : ℝ) / 2) ∨
      mathRound ((-3 : ℝ) / 2) = roundHalfToEven ((-3 : ℝ) / 2)) := by
  refine ⟨?_, roundHalfAwayFromZero_neg_three_halves,
    roundHalfToEven_neg_three_halves, ?_⟩
  · unfold snapToGrid GRID_SIZE
    rw [show ((-3 : ℝ) / 2 / 1) = (-3 : ℝ) / 2 by norm_num,
      show ((0 : ℝ) / 1) = 0 by norm_num]
    rw [mathRound_neg_three_halves, mathRound_zero]
    refine Vec3.ext ?_ ?_ ?_ <;> norm_num
  · rw [mathRound_neg_three_halves, roundHalfAwayFromZero_neg_three_halves,
      roundHalfToEven_neg_three_halves]
    simp

/-- C4 amended: the lattice snap computes `round(p / s) * s` component-wise
with `s` the lattice cell size, where the rounding rule is JavaScript
Math.round, round-half-up: the nearest integer, an exact half rounding
toward positive infinity.  As a Lean function it is total and
deterministic for every real input, including exact half-cell boundaries,
and each snapped component moves by at most half a cell. -/
theorem c4_amended_snap_half_up :
    (∀ v : Vec3, snapToGrid v =
       ⟨(mathRound (v.x / GRID_SIZE) : ℝ) * GRID_SIZE,
        (mathRound (v.y / GRID_SIZE) : ℝ) * GRID_SIZE,
        (mathRound (v.z / GRID_SIZE) : ℝ) * GRID_SIZE⟩) ∧
    (∀ x : ℝ, |(mathRound x : ℝ) - x| ≤ 1 / 2) ∧
    (∀ n : ℤ, mathRound ((n : ℝ) + 1 / 2) = n + 1) ∧
    (∀ v : Vec3, |(snapToGrid v).x - v.x| ≤ GRID_SIZE / 2 ∧
       |(snapToGrid v).y - v.y| ≤ GRID_SIZE / 2 ∧
       |(snapToGrid v).z - v.z| ≤ GRID_SIZE / 2) := by
  have habs : ∀ x : ℝ, |(mathRound x : ℝ) - x| ≤ 1 / 2 := by
    intro x
    rw [mathRound_eq_round, abs_sub_comm]
    exact abs_sub_round x
  have hsnap : ∀ x : ℝ, |(mathRound (x / GRID_SIZE) : ℝ) * GRID_SIZE - x| ≤
      GRID_SIZE / 2 := by
    intro x
    unfold GRID_SIZE
    rw [mul_one, div_one]
    exact habs x
  refine ⟨fun v => rfl, habs, ?_, ?_⟩
  · intro n
    unfold mathRound
    rw [show ((n : ℝ) + 1 / 2 + 1 / 2) = ((n + 1 : ℤ) : ℝ) by
      push_cast
      ring]
    exact Int.floor_intCast _
  · intro v
    exact ⟨hsnap v.x, hsnap v.y, hsnap v.z⟩

/-- C5: with the camera at the world origin facing -Z (fov 70, near 0.01,
far 100, any aspect ratio), BUILD_DISTANCE = 6 and cell size 1, the screen
point (1/2, 1/2) maps through the NDC conversion, the unprojection and the
ray advance to the continuous world point (0, 0, -6), which snaps to the
lattice position (0, 0, -6). -/
theorem c5_center_screen_projection :
    ∀ aspect : ℝ,
      continuousTarget (appCamera aspect) (1 / 2) (1 / 2) = ⟨0, 0, -6⟩ ∧
      getSnappedWorldPosition (some (appCamera aspect)) (1 / 2) (1 / 2) =
        ⟨0, 0, -6⟩ :=
  fun a => ⟨continuousTarget_center a, getSnapped_center a⟩

/-- C6: a processed frame with no hand — a missing `multiHandLandmarks`
(`none`) or an empty hand list (`some []`) — forces Idle: the pinch memory
becomes false, the preview is hidden whenever the preview cube exists, the
store is untouched, and no placement call fires, so a hand dropped
mid-pinch never places a voxel. -/
theorem c6_no_hand_forces_idle :
    ∀ (s : AppState) (r : HandInput), (r = none ∨ r = some []) →
      (onResults s r).lastPinch = false ∧
      (s.previewReady = true → (onResults s r).previewVisible = false) ∧
      (onResults s r).placedCubes = s.placedCubes ∧
      (onResults s r).blockCount = s.blockCount ∧
      ¬ firesRelease s r := by
  intro s r h
  refine ⟨lastPinch_onResults_no_hand s h, ?_, ?_, ?_,
    firesRelease_no_hand s h⟩
  · intro hp
    rw [onResults, onResultsT_no_hand s h]
    simp [hp]
  · rw [onResults, onResultsT_no_hand s h]
    by_cases hp : s.previewReady <;> simp [hp]
  · rw [onResults, onResultsT_no_hand s h]
    by_cases hp : s.previewReady <;> simp [hp]

/-- Witness for C6 at a concrete input: a `none` frame arriving at the
pinching state `s8` hides the preview, clears the pinch memory and places
nothing. -/
theorem c6_no_hand_forces_idle_witness :
    (onResults s8 none).lastPinch = false ∧
    (onResults s8 none).previewVisible = false ∧
    (onResults s8 none).placedCubes = s8.placedCubes ∧
    ¬ firesRelease s8 none :=
  ⟨(c6_no_hand_forces_idle s8 none (Or.inl rfl)).1,
   (c6_no_hand_forces_idle s8 none (Or.inl rfl)).2.1 rfl,
   (c6_no_hand_forces_idle s8 none (Or.inl rfl)).2.2.1,
   (c6_no_hand_forces_idle s8 none (Or.inl rfl)).2.2.2.2⟩

/-- C7: in every reachable state the block count equals the number of
stored voxels, which is the number of successful placements since the last
clear (each frame either leaves the store unchanged or appends exactly one
new position while incrementing the count by one — the store grows only
through placement and never shrinks element-by-element); and clearing any
reachable state leaves an empty store with count 0. -/
theorem c7_count_invariant :
    (∀ s : AppState, Reachable s → s.blockCount = s.placedCubes.length) ∧
    (∀ s : AppState, Reachable s →
       (resetScene s).blockCount = 0 ∧ (resetScene s).placedCubes = []) ∧
    (∀ (s : AppState) (r : HandInput),
       ((onResults s r).placedCubes = s.placedCubes ∧
        (onResults s r).blockCount = s.blockCount) ∨
       (∃ p, p ∉ s.placedCubes ∧
         (onResults s r).placedCubes = s.placedCubes ++ [p] ∧
         (onResults s r).blockCount = s.blockCount + 1)) := by
  refine ⟨fun s h => reachable_count_eq_length h, fun s h => ?_,
    onResults_store_effect⟩
  rcases resetScene_cases s with ⟨hnr, hc⟩ | ⟨_, hc⟩
  · rcases reachable_not_ready_empty h hnr with ⟨h1, h2⟩
    rw [hc]
    exact ⟨h2, h1⟩
  · rw [hc]
    exact ⟨rfl, rfl⟩

/-- Witness for C7 at a concrete input: the fresh initialized state has
count equal to its store length and clears to the empty store. -/
theorem c7_count_invariant_witness :
    (initState true true none).blockCount =
      (initState true true none).placedCubes.length ∧
    (resetScene (initState true true none)).blockCount = 0 ∧
    (resetScene (initState true true none)).placedCubes = [] :=
  ⟨c7_count_invariant.1 (initState true true none)
     (Reachable.init true true none),
   (c7_count_invariant.2.1 (initState true true none)
     (Reachable.init true true none)).1,
   (c7_count_invariant.2.1 (initState true true none)
     (Reachable.init true true none)).2⟩

/-- C8 counterexample: on a release frame the callback first writes the
preview (position and `visible = false`, hiding it, lines 179-182) and
only then calls `placeBlock` (line 186): at the concrete pinching state
`s8` and the non-pinching frame `handRel` the ordered side effects are the
hide-write followed by the place call, so the placement is not invoked
before the preview is hidden as the claim states. -/
theorem c8_counterexample_hide_precedes_place :
    (onResultsT s8 (some [handRel])).2 =
      [Event.setPreview ⟨0, 0, -6⟩ false, Event.placeCall ⟨0, 0, -6⟩] := by
  rw [onResultsT_hand]
  have hfire : (s8.lastPinch && !(isPinchingB handRel)) = true := by
    rw [show s8.lastPinch = true from rfl, isPinchingB_handRel]
    rfl
  rw [hfire, isPinchingB_handRel, snapMid_s8_handRel]
  rw [if_pos rfl, if_pos rfl]
  rfl

/-- C8 amended: on the exact frame where `justReleased` is true the
controller invokes `placeBlock` with the lattice position computed from
the current frame's pinch-point midpoint, and the preview ends that frame
hidden; the visibility write precedes the place call within the frame. -/
theorem c8_amended_place_on_release :
    ∀ (s : AppState) (l : List Landmark) (rest : List (List Landmark)),
      s.lastPinch = true → isPinchingB l = false → s.previewReady = true →
      (onResultsT s (some (l :: rest))).2 =
        [Event.setPreview (snapMid s l) false,
         Event.placeCall (snapMid s l)] ∧
      (onResults s (some (l :: rest))).previewVisible = false := by
  intro s l rest hl hpin hp
  have hfire : (s.lastPinch && !(isPinchingB l)) = true := by
    rw [hl, hpin]
    rfl
  constructor
  · rw [onResultsT_hand, hfire, hpin, if_pos hp, if_pos rfl]
    rfl
  · rw [onResults, onResultsT_hand, hfire]
    show (placeBlock (previewStep s l) (snapMid s l)).previewVisible = false
    rw [placeBlock_previewVisible]
    unfold previewStep
    rw [if_pos hp]
    exact hpin

/-- Witness for C8 (amended) at a concrete input: the pinching state `s8`
processing the non-pinching frame `handRel`. -/
theorem c8_amended_place_on_release_witness :
    (onResultsT s8 (some [handRel])).2 =
      [Event.setPreview (snapMid s8 handRel) false,
       Event.placeCall (snapMid s8 handRel)] ∧
    (onResults s8 (some [handRel])).previewVisible = false :=
  c8_amended_place_on_release s8 handRel [] rfl isPinchingB_handRel rfl

/-- C9: when the camera ref is still null (camera pose unavailable, e.g.
at startup) the projector is total and returns the defined default — the
origin `new THREE.Vector3()` — for every screen point. -/
theorem c9_null_camera_returns_origin :
    ∀ x y : ℝ, getSnappedWorldPosition none x y = ⟨0, 0, 0⟩ :=
  fun _ _ => rfl

/-- C10: before the scene is initialized (`sceneRef.current` null),
`placeBlock` is a total no-op for every position — the whole state is
returned unchanged — and a frame processed in such a state never changes
the store, so a release edge arriving before initialization commits
nothing; as a total Lean function the callback cannot crash. -/
theorem c10_place_before_init_noop :
    ∀ (s : AppState) (pos : Vec3) (r : HandInput), s.sceneReady = false →
      placeBlock s pos = s ∧
      (onResults s r).placedCubes = s.placedCubes ∧
      (onResults s r).blockCount = s.blockCount := by
  intro s pos r h
  exact ⟨placeBlock_of_not_ready pos h, (onResults_not_ready_store s r h).1,
    (onResults_not_ready_store s r h).2⟩

/-- Witness for C10 at a concrete input: in an uninitialized state with
the pinch memory set, a release frame changes no store field and a direct
placement is the identity. -/
theorem c10_place_before_init_noop_witness :
    placeBlock { initState false true none with lastPinch := true }
        ⟨0, 0, 0⟩ =
      { initState false true none with lastPinch := true } ∧
    (onResults { initState false true none with lastPinch := true }
        (some [handOpen])).placedCubes = [] ∧
    (onResults { initState false true none with lastPinch := true }
        (some [handOpen])).blockCount = 0 :=
  ⟨(c10_place_before_init_noop
      { initState false true none with lastPinch := true } ⟨0, 0, 0⟩
      (some [handOpen]) rfl).1,
   (c10_place_before_init_noop
      { initState false true none with lastPinch := true } ⟨0, 0, 0⟩
      (some [handOpen]) rfl).2.1,
   (c10_place_before_init_noop
      { initState false true none with lastPinch := true } ⟨0, 0, 0⟩
      (some [handOpen]) rfl).2.2⟩

end ARVoxel
